import Mathlib

/-!
# Output image tag step (`pkg/steps/output_image_tag.go`, `pkg/steps/image_stream_util.go`)

A shallow embedding of the output-tag step of ci-operator.

Modelling conventions.

* Go strings are embedded as `String`; `len(s)` is the UTF-8 byte length.
  `fmt.Sprintf` with `%s` verbs is string concatenation.
* A Go `error` value is embedded as `Option GoError` (`none` is `nil`), where
  `GoError` is the text of `err.Error()`.
* The remote catalog reached through `istClient` / `isClient` is an explicit
  state of type `σ`, passed through every call.  The client library itself is
  not part of the package: the step is embedded over an arbitrary `Client σ`,
  and `memClient` is a concrete in-memory catalog.
* `log.Printf` / `fmt.Printf` write to the output sink only, so they are left
  out of the embedding; the catalog state is the only state that is tracked.
-/

namespace steps

/-! ## Kubernetes / OpenShift API objects used by the step -/

/-- Text of a Go error value (`err.Error()`). -/
abbrev GoError := String

/-- The status reason carried by an API error (`k8s.io/apimachinery/pkg/api/errors`). -/
inductive StatusReason where
  | NotFound
  | AlreadyExists
  | Other
  deriving DecidableEq

/-- An error returned by a catalog call. -/
structure APIError where
  reason : StatusReason
  message : String
  deriving DecidableEq

/-- Go `errors.IsNotFound`. -/
def IsNotFound (err : APIError) : Bool :=
  err.reason == StatusReason.NotFound

/-- Go `errors.IsAlreadyExists`. -/
def IsAlreadyExists (err : APIError) : Bool :=
  err.reason == StatusReason.AlreadyExists

/-- The error of a call when it is fatal: `err != nil && !tolerated(err)`. -/
def fatal (tolerated : APIError → Bool) (err : Option APIError) : Option APIError :=
  match err with
  | some e => if !tolerated e then some e else none
  | none => none

/-- Go `coreapi.ObjectReference` (the fields the step sets). -/
structure ObjectReference where
  Kind : String
  Name : String
  Namespace : String
  deriving DecidableEq

/-- Go `imageapi.TagReferencePolicyType`. -/
inductive TagReferencePolicyType where
  | SourceTagReferencePolicy
  | LocalTagReferencePolicy
  deriving DecidableEq

/-- Go `imageapi.TagReferencePolicy`. -/
structure TagReferencePolicy where
  Typ : TagReferencePolicyType
  deriving DecidableEq

/-- Go `imageapi.TagReference` (the fields the step sets). -/
structure TagReference where
  ReferencePolicy : TagReferencePolicy
  From : Option ObjectReference
  deriving DecidableEq

/-- Go `imageapi.Image` (only its name, the image identifier, is read). -/
structure Image where
  Name : String
  deriving DecidableEq

/-- Go `imageapi.ImageStreamTag`: object metadata, the tag reference and the resolved image. -/
structure ImageStreamTag where
  Namespace : String
  Name : String
  Tag : Option TagReference
  Image : Image
  deriving DecidableEq

/-- Go `imageapi.ImageStreamStatus` (the two registry fields the step reads). -/
structure ImageStreamStatus where
  DockerImageRepository : String
  PublicDockerImageRepository : String
  deriving DecidableEq

/-- Go `imageapi.ImageStream`. -/
structure ImageStream where
  Namespace : String
  Name : String
  Status : ImageStreamStatus
  deriving DecidableEq

/-! ## The `api` package types the step uses -/

/-- Go `api.ImageStreamTagReference` (the fields the step reads). -/
structure ImageStreamTagReference where
  Namespace : String
  Name : String
  Tag : String
  As : String
  deriving DecidableEq

/-- Go `api.OutputImageTagStepConfiguration`. -/
structure OutputImageTagStepConfiguration where
  From : String
  To : ImageStreamTagReference
  deriving DecidableEq

/-- Go `api.JobSpec` (only the ambient job namespace is read). -/
structure JobSpec where
  Namespace : String
  deriving DecidableEq

/-- Modelled from the spec: the constant `api.PipelineImageStream`, declared in the `api`
package; the internal pipeline stream is named "pipeline". -/
def PipelineImageStream : String := "pipeline"

/-- Modelled from the spec: the type `api.StepLink` and its constructors
`api.InternalImageLink`, `api.ExternalImageLink`, `api.ReleaseImagesLink`, declared in the
`api` package: a tagged union with structural equality over an internal artifact name, an
external (namespace, name, tag) triple and the release-images barrier. -/
inductive StepLink where
  | InternalArtifact (name : String)
  | ExternalTag (ns name tag : String)
  | ReleaseImagesBarrier
  deriving DecidableEq

/-- Go `api.InternalImageLink`. -/
def InternalImageLink (name : String) : StepLink :=
  StepLink.InternalArtifact name

/-- Go `api.ExternalImageLink`. -/
def ExternalImageLink (ref : ImageStreamTagReference) : StepLink :=
  StepLink.ExternalTag ref.Namespace ref.Name ref.Tag

/-- Go `api.ReleaseImagesLink`. -/
def ReleaseImagesLink : StepLink :=
  StepLink.ReleaseImagesBarrier

/-- Go `api.ParameterMap`: parameter names with their lazy resolvers; a resolver is run
against the catalog state of the moment it is called. -/
abbrev ParameterMap (σ : Type) := List (String × (σ → String × Option GoError))

/-- Go `api.PipelineImageStreamTagReference(...)`: a string conversion. -/
def PipelineImageStreamTagReference (name : String) : String := name

/-! ## The catalog client -/

/-- The calls the step makes on `istClient` (`ImageStreamTags(ns)`) and `isClient`
(`ImageStreams(ns)`), over a catalog state `σ`.  The first `String` argument is the namespace
the client is scoped to.  Fetches leave the catalog as it is; creations and deletions return
the error value together with the catalog after the call. -/
structure Client (σ : Type) where
  ImageStreamTagsGet : σ → String → String → Except APIError ImageStreamTag
  ImageStreamTagsCreate : σ → String → ImageStreamTag → Option APIError × σ
  ImageStreamTagsDelete : σ → String → String → Option APIError × σ
  ImageStreamsGet : σ → String → String → Except APIError ImageStream
  ImageStreamsCreate : σ → String → ImageStream → Option APIError × σ

/-! ## `image_stream_util.go` -/

/-- Go `createImageStream`: in dry-run mode the stream is only rendered to the output sink
(marshalling this plain record cannot fail) and no call is made. -/
def createImageStream {σ : Type} (isClient : Client σ) (is : ImageStream) (dry : Bool)
    (c : σ) : Option APIError × σ :=
  if dry then
    (none, c)
  else
    isClient.ImageStreamsCreate c is.Namespace is

/-- Go `createImageStreamTag`: in dry-run mode the tag is only rendered to the output sink
(marshalling this plain record cannot fail) and no call is made. -/
def createImageStreamTag {σ : Type} (istClient : Client σ) (ist : ImageStreamTag) (dry : Bool)
    (c : σ) : Option APIError × σ :=
  if dry then
    (none, c)
  else
    istClient.ImageStreamTagsCreate c ist.Namespace ist

/-- Go `newImageStream`. -/
def newImageStream (ns name : String) : ImageStream :=
  { Namespace := ns
    Name := name
    Status := { DockerImageRepository := "", PublicDockerImageRepository := "" } }

/-- Go `newImageStreamTag`. -/
def newImageStreamTag (fromNamespace fromName fromTag toNamespace toName toTag : String) :
    ImageStreamTag :=
  { Name := toName ++ ":" ++ toTag
    Namespace := toNamespace
    Tag := some
      { ReferencePolicy := { Typ := TagReferencePolicyType.LocalTagReferencePolicy }
        From := some
          { Kind := "ImageStreamImage"
            Name := fromName ++ "@" ++ fromTag
            Namespace := fromNamespace } }
    Image := { Name := "" } }

/-! ## The Go `strings` functions the step calls

Strings are sequences of runes here; the one separator the step replaces, "-", is a single
ASCII byte, so rune positions and byte positions of its occurrences agree. -/

/-- Go `strings.HasPrefix` on rune lists. -/
def HasPrefix : List Char → List Char → Bool
  | _, [] => true
  | [], _ :: _ => false
  | c :: s, d :: p => c == d && HasPrefix s p

/-- Go `strings.Index`: the position of the first occurrence of `substr` in `s`, or `none`
where Go returns `-1`. -/
def Index : List Char → List Char → Option Nat
  | [], substr => if substr.isEmpty then some 0 else none
  | c :: s, substr =>
    if HasPrefix (c :: s) substr then some 0
    else (Index s substr).map (· + 1)

/-- The loop of Go `strings.Count` for a non-empty `substr`; `fuel` bounds the iterations. -/
def countLoop (substr : List Char) : Nat → List Char → Nat
  | 0, _ => 0
  | fuel + 1, s =>
    match Index s substr with
    | none => 0
    | some i => countLoop substr fuel (s.drop (i + substr.length)) + 1

/-- Go `strings.Count`: the number of non-overlapping occurrences of `substr` in `s`. -/
def Count (s substr : List Char) : Nat :=
  if substr.isEmpty then s.length + 1
  else countLoop substr (s.length + 1) s

/-- The loop of Go `strings.Replace`: `n` replacements are still to be made in `s`, and
`i0` tells the first iteration (`i == 0`) from the later ones. -/
def replaceLoop (old new : List Char) : Nat → Bool → List Char → List Char
  | 0, _, s => s
  | n + 1, i0, s =>
    let j : Nat :=
      if old.isEmpty then (if i0 then 0 else 1)
      else (Index s old).getD 0
    s.take j ++ new ++ replaceLoop old new n false (s.drop (j + old.length))

/-- Go `strings.Replace(s, old, new, n)`. -/
def Replace (s old new : String) (n : Int) : String :=
  if old == new || n == 0 then s
  else
    let m := Count s.data old.data
    if m == 0 then s
    else
      let k : Nat := if n < 0 || (m : Int) < n then m else n.toNat
      String.mk (replaceLoop old.data new.data k true s.data)

/-! ## The Go `unicode` upper-case mapping -/

/-- Go `unicode.CaseRange`, upper-case column: the runes `Lo` to `Hi` map to themselves plus
`Delta`; `Delta = none` stands for Go's `UpperLower`, an alternating sequence that starts with
an upper-case letter. -/
structure CaseRange where
  Lo : Nat
  Hi : Nat
  Delta : Option Int
  deriving DecidableEq

/-- Go `unicode.CaseRanges`, the ranges with a non-zero upper-case delta: the simple upper-case
mappings of the Unicode Character Database (version 14.0.0), a table of the Go standard
library. -/
def CaseRanges : List CaseRange :=
  [CaseRange.mk 0x0061 0x007A (some (-32)), CaseRange.mk 0x00B5 0x00B5 (some 743),
   CaseRange.mk 0x00E0 0x00F6 (some (-32)), CaseRange.mk 0x00F8 0x00FE (some (-32)),
   CaseRange.mk 0x00FF 0x00FF (some 121), CaseRange.mk 0x0100 0x012F none,
   CaseRange.mk 0x0131 0x0131 (some (-232)), CaseRange.mk 0x0132 0x0137 none,
   CaseRange.mk 0x0139 0x0148 none, CaseRange.mk 0x014A 0x0177 none,
   CaseRange.mk 0x0179 0x017E none, CaseRange.mk 0x017F 0x017F (some (-300)),
   CaseRange.mk 0x0180 0x0180 (some 195), CaseRange.mk 0x0182 0x0185 none,
   CaseRange.mk 0x0188 0x0188 (some (-1)), CaseRange.mk 0x018C 0x018C (some (-1)),
   CaseRange.mk 0x0192 0x0192 (some (-1)), CaseRange.mk 0x0195 0x0195 (some 97),
   CaseRange.mk 0x0199 0x0199 (some (-1)), CaseRange.mk 0x019A 0x019A (some 163),
   CaseRange.mk 0x019E 0x019E (some 130), CaseRange.mk 0x01A0 0x01A5 none,
   CaseRange.mk 0x01A8 0x01A8 (some (-1)), CaseRange.mk 0x01AD 0x01AD (some (-1)),
   CaseRange.mk 0x01B0 0x01B0 (some (-1)), CaseRange.mk 0x01B3 0x01B6 none,
   CaseRange.mk 0x01B9 0x01B9 (some (-1)), CaseRange.mk 0x01BD 0x01BD (some (-1)),
   CaseRange.mk 0x01BF 0x01BF (some 56), CaseRange.mk 0x01C5 0x01C5 (some (-1)),
   CaseRange.mk 0x01C6 0x01C6 (some (-2)), CaseRange.mk 0x01C8 0x01C8 (some (-1)),
   CaseRange.mk 0x01C9 0x01C9 (some (-2)), CaseRange.mk 0x01CB 0x01CB (some (-1)),
   CaseRange.mk 0x01CC 0x01CC (some (-2)), CaseRange.mk 0x01CD 0x01DC none,
   CaseRange.mk 0x01DD 0x01DD (some (-79)), CaseRange.mk 0x01DE 0x01EF none,
   CaseRange.mk 0x01F2 0x01F2 (some (-1)), CaseRange.mk 0x01F3 0x01F3 (some (-2)),
   CaseRange.mk 0x01F5 0x01F5 (some (-1)), CaseRange.mk 0x01F8 0x021F none,
   CaseRange.mk 0x0222 0x0233 none, CaseRange.mk 0x023C 0x023C (some (-1)),
   CaseRange.mk 0x023F 0x0240 (some 10815), CaseRange.mk 0x0242 0x0242 (some (-1)),
   CaseRange.mk 0x0246 0x024F none, CaseRange.mk 0x0250 0x0250 (some 10783),
   CaseRange.mk 0x0251 0x0251 (some 10780), CaseRange.mk 0x0252 0x0252 (some 10782),
   CaseRange.mk 0x0253 0x0253 (some (-210)), CaseRange.mk 0x0254 0x0254 (some (-206)),
   CaseRange.mk 0x0256 0x0257 (some (-205)), CaseRange.mk 0x0259 0x0259 (some (-202)),
   CaseRange.mk 0x025B 0x025B (some (-203)), CaseRange.mk 0x025C 0x025C (some 42319),
   CaseRange.mk 0x0260 0x0260 (some (-205)), CaseRange.mk 0x0261 0x0261 (some 42315),
   CaseRange.mk 0x0263 0x0263 (some (-207)), CaseRange.mk 0x0265 0x0265 (some 42280),
   CaseRange.mk 0x0266 0x0266 (some 42308), CaseRange.mk 0x0268 0x0268 (some (-209)),
   CaseRange.mk 0x0269 0x0269 (some (-211)), CaseRange.mk 0x026A 0x026A (some 42308),
   CaseRange.mk 0x026B 0x026B (some 10743), CaseRange.mk 0x026C 0x026C (some 42305),
   CaseRange.mk 0x026F 0x026F (some (-211)), CaseRange.mk 0x0271 0x0271 (some 10749),
   CaseRange.mk 0x0272 0x0272 (some (-213)), CaseRange.mk 0x0275 0x0275 (some (-214)),
   CaseRange.mk 0x027D 0x027D (some 10727), CaseRange.mk 0x0280 0x0280 (some (-218)),
   CaseRange.mk 0x0282 0x0282 (some 42307), CaseRange.mk 0x0283 0x0283 (some (-218)),
   CaseRange.mk 0x0287 0x0287 (some 42282), CaseRange.mk 0x0288 0x0288 (some (-218)),
   CaseRange.mk 0x0289 0x0289 (some (-69)), CaseRange.mk 0x028A 0x028B (some (-217)),
   CaseRange.mk 0x028C 0x028C (some (-71)), CaseRange.mk 0x0292 0x0292 (some (-219)),
   CaseRange.mk 0x029D 0x029D (some 42261), CaseRange.mk 0x029E 0x029E (some 42258),
   CaseRange.mk 0x0345 0x0345 (some 84), CaseRange.mk 0x0370 0x0373 none,
   CaseRange.mk 0x0377 0x0377 (some (-1)), CaseRange.mk 0x037B 0x037D (some 130),
   CaseRange.mk 0x03AC 0x03AC (some (-38)), CaseRange.mk 0x03AD 0x03AF (some (-37)),
   CaseRange.mk 0x03B1 0x03C1 (some (-32)), CaseRange.mk 0x03C2 0x03C2 (some (-31)),
   CaseRange.mk 0x03C3 0x03CB (some (-32)), CaseRange.mk 0x03CC 0x03CC (some (-64)),
   CaseRange.mk 0x03CD 0x03CE (some (-63)), CaseRange.mk 0x03D0 0x03D0 (some (-62)),
   CaseRange.mk 0x03D1 0x03D1 (some (-57)), CaseRange.mk 0x03D5 0x03D5 (some (-47)),
   CaseRange.mk 0x03D6 0x03D6 (some (-54)), CaseRange.mk 0x03D7 0x03D7 (some (-8)),
   CaseRange.mk 0x03D8 0x03EF none, CaseRange.mk 0x03F0 0x03F0 (some (-86)),
   CaseRange.mk 0x03F1 0x03F1 (some (-80)), CaseRange.mk 0x03F2 0x03F2 (some 7),
   CaseRange.mk 0x03F3 0x03F3 (some (-116)), CaseRange.mk 0x03F5 0x03F5 (some (-96)),
   CaseRange.mk 0x03F8 0x03F8 (some (-1)), CaseRange.mk 0x03FB 0x03FB (some (-1)),
   CaseRange.mk 0x0430 0x044F (some (-32)), CaseRange.mk 0x0450 0x045F (some (-80)),
   CaseRange.mk 0x0460 0x0481 none, CaseRange.mk 0x048A 0x04BF none,
   CaseRange.mk 0x04C1 0x04CE none, CaseRange.mk 0x04CF 0x04CF (some (-15)),
   CaseRange.mk 0x04D0 0x052F none, CaseRange.mk 0x0561 0x0586 (some (-48)),
   CaseRange.mk 0x10D0 0x10FA (some 3008), CaseRange.mk 0x10FD 0x10FF (some 3008),
   CaseRange.mk 0x13F8 0x13FD (some (-8)), CaseRange.mk 0x1C80 0x1C80 (some (-6254)),
   CaseRange.mk 0x1C81 0x1C81 (some (-6253)), CaseRange.mk 0x1C82 0x1C82 (some (-6244)),
   CaseRange.mk 0x1C83 0x1C84 (some (-6242)), CaseRange.mk 0x1C85 0x1C85 (some (-6243)),
   CaseRange.mk 0x1C86 0x1C86 (some (-6236)), CaseRange.mk 0x1C87 0x1C87 (some (-6181)),
   CaseRange.mk 0x1C88 0x1C88 (some 35266), CaseRange.mk 0x1D79 0x1D79 (some 35332),
   CaseRange.mk 0x1D7D 0x1D7D (some 3814), CaseRange.mk 0x1D8E 0x1D8E (some 35384),
   CaseRange.mk 0x1E00 0x1E95 none, CaseRange.mk 0x1E9B 0x1E9B (some (-59)),
   CaseRange.mk 0x1EA0 0x1EFF none, CaseRange.mk 0x1F00 0x1F07 (some 8),
   CaseRange.mk 0x1F10 0x1F15 (some 8), CaseRange.mk 0x1F20 0x1F27 (some 8),
   CaseRange.mk 0x1F30 0x1F37 (some 8), CaseRange.mk 0x1F40 0x1F45 (some 8),
   CaseRange.mk 0x1F51 0x1F51 (some 8), CaseRange.mk 0x1F53 0x1F53 (some 8),
   CaseRange.mk 0x1F55 0x1F55 (some 8), CaseRange.mk 0x1F57 0x1F57 (some 8),
   CaseRange.mk 0x1F60 0x1F67 (some 8), CaseRange.mk 0x1F70 0x1F71 (some 74),
   CaseRange.mk 0x1F72 0x1F75 (some 86), CaseRange.mk 0x1F76 0x1F77 (some 100),
   CaseRange.mk 0x1F78 0x1F79 (some 128), CaseRange.mk 0x1F7A 0x1F7B (some 112),
   CaseRange.mk 0x1F7C 0x1F7D (some 126), CaseRange.mk 0x1F80 0x1F87 (some 8),
   CaseRange.mk 0x1F90 0x1F97 (some 8), CaseRange.mk 0x1FA0 0x1FA7 (some 8),
   CaseRange.mk 0x1FB0 0x1FB1 (some 8), CaseRange.mk 0x1FB3 0x1FB3 (some 9),
   CaseRange.mk 0x1FBE 0x1FBE (some (-7205)), CaseRange.mk 0x1FC3 0x1FC3 (some 9),
   CaseRange.mk 0x1FD0 0x1FD1 (some 8), CaseRange.mk 0x1FE0 0x1FE1 (some 8),
   CaseRange.mk 0x1FE5 0x1FE5 (some 7), CaseRange.mk 0x1FF3 0x1FF3 (some 9),
   CaseRange.mk 0x214E 0x214E (some (-28)), CaseRange.mk 0x2170 0x217F (some (-16)),
   CaseRange.mk 0x2184 0x2184 (some (-1)), CaseRange.mk 0x24D0 0x24E9 (some (-26)),
   CaseRange.mk 0x2C30 0x2C5F (some (-48)), CaseRange.mk 0x2C61 0x2C61 (some (-1)),
   CaseRange.mk 0x2C65 0x2C65 (some (-10795)), CaseRange.mk 0x2C66 0x2C66 (some (-10792)),
   CaseRange.mk 0x2C67 0x2C6C none, CaseRange.mk 0x2C73 0x2C73 (some (-1)),
   CaseRange.mk 0x2C76 0x2C76 (some (-1)), CaseRange.mk 0x2C80 0x2CE3 none,
   CaseRange.mk 0x2CEB 0x2CEE none, CaseRange.mk 0x2CF3 0x2CF3 (some (-1)),
   CaseRange.mk 0x2D00 0x2D25 (some (-7264)), CaseRange.mk 0x2D27 0x2D27 (some (-7264)),
   CaseRange.mk 0x2D2D 0x2D2D (some (-7264)), CaseRange.mk 0xA640 0xA66D none,
   CaseRange.mk 0xA680 0xA69B none, CaseRange.mk 0xA722 0xA72F none,
   CaseRange.mk 0xA732 0xA76F none, CaseRange.mk 0xA779 0xA77C none,
   CaseRange.mk 0xA77E 0xA787 none, CaseRange.mk 0xA78C 0xA78C (some (-1)),
   CaseRange.mk 0xA790 0xA793 none, CaseRange.mk 0xA794 0xA794 (some 48),
   CaseRange.mk 0xA796 0xA7A9 none, CaseRange.mk 0xA7B4 0xA7C3 none,
   CaseRange.mk 0xA7C7 0xA7CA none, CaseRange.mk 0xA7D1 0xA7D1 (some (-1)),
   CaseRange.mk 0xA7D6 0xA7D9 none, CaseRange.mk 0xA7F6 0xA7F6 (some (-1)),
   CaseRange.mk 0xAB53 0xAB53 (some (-928)), CaseRange.mk 0xAB70 0xABBF (some (-38864)),
   CaseRange.mk 0xFF41 0xFF5A (some (-32)), CaseRange.mk 0x10428 0x1044F (some (-40)),
   CaseRange.mk 0x104D8 0x104FB (some (-40)), CaseRange.mk 0x10597 0x105A1 (some (-39)),
   CaseRange.mk 0x105A3 0x105B1 (some (-39)), CaseRange.mk 0x105B3 0x105B9 (some (-39)),
   CaseRange.mk 0x105BB 0x105BC (some (-39)), CaseRange.mk 0x10CC0 0x10CF2 (some (-64)),
   CaseRange.mk 0x118C0 0x118DF (some (-32)), CaseRange.mk 0x16E60 0x16E7F (some (-32)),
   CaseRange.mk 0x1E922 0x1E943 (some (-34))]

/-- Go `unicode.to(UpperCase, r, caseRange)`: the range that holds `r` decides the mapping; a
rune in no range maps to itself.  In an `UpperLower` sequence the low bit of the offset is
cleared (`(r - Lo) &^ 1`). -/
def toUpperCase (r : Nat) (caseRange : List CaseRange) : Nat :=
  match caseRange.find? fun cr => decide (cr.Lo ≤ r) && decide (r ≤ cr.Hi) with
  | some cr =>
    match cr.Delta with
    | none => cr.Lo + (r - cr.Lo) / 2 * 2
    | some delta => ((r : Int) + delta).toNat
  | none => r

/-- Go `unicode.ToUpper`: ASCII runes are mapped directly (`r <= MaxASCII`), the others through
`CaseRanges`. -/
def unicodeToUpper (r : Char) : Char :=
  if r.toNat ≤ 0x7F then
    if 'a' ≤ r ∧ r ≤ 'z' then Char.ofNat (r.toNat - 32) else r
  else
    Char.ofNat (toUpperCase r.toNat CaseRanges)

/-- Whether a rune is ASCII (`c < utf8.RuneSelf`). -/
def isASCII (c : Char) : Bool := c.toNat < 128

/-- Go `strings.ToUpper`: a pure ASCII string is upper-cased byte by byte, any other string is
mapped rune by rune through `unicode.ToUpper`. -/
def ToUpper (s : String) : String :=
  if s.data.all isASCII then
    String.mk (s.data.map fun c => if 'a' ≤ c ∧ c ≤ 'z' then Char.ofNat (c.toNat - 32) else c)
  else
    String.mk (s.data.map unicodeToUpper)

/-- The wording of the specification for the normalisation of the alias: every "-" is
replaced by "_". -/
def underscoreNormalized (s : String) : String :=
  String.mk (s.data.map fun c => if c = '-' then '_' else c)

/-- The wording of the specification for the upper-casing of the alias: every rune is
replaced by its simple upper-case mapping in the Unicode Character Database, and a rune without
one is kept. -/
def upperCased (s : String) : String :=
  String.mk (s.data.map fun c => Char.ofNat (toUpperCase c.toNat CaseRanges))

/-! ## `output_image_tag.go` -/

/-- Go `len` on a string: the number of bytes. -/
def len (s : String) : Nat := s.utf8ByteSize

/-- Go `outputImageTagStep`; `istClient` and `isClient` are two views of one catalog. -/
structure outputImageTagStep (σ : Type) where
  config : OutputImageTagStepConfiguration
  client : Client σ
  jobSpec : JobSpec

namespace outputImageTagStep

variable {σ : Type}

/-- Go `(*outputImageTagStep).namespace`. -/
def namespace' (s : outputImageTagStep σ) : String :=
  if len s.config.To.Namespace != 0 then
    s.config.To.Namespace
  else
    s.jobSpec.Namespace

/-- Go `(*outputImageTagStep).imageStreamTag`. -/
def imageStreamTag (s : outputImageTagStep σ) (fromImage : String) : ImageStreamTag :=
  newImageStreamTag s.jobSpec.Namespace PipelineImageStream fromImage
    s.namespace' s.config.To.Name s.config.To.Tag

/-- Go `(*outputImageTagStep).Run`: the returned error and the catalog after the call.
Each `if err := call; err != nil && !tolerated(err) { return ... }` of the source is a match
on `fatal tolerated err`. -/
def Run (s : outputImageTagStep σ) (dry : Bool) (c : σ) : Option GoError × σ :=
  let toNamespace := s.namespace'
  let resolved : Except APIError String :=
    if !dry then
      match s.client.ImageStreamTagsGet c s.jobSpec.Namespace
          (PipelineImageStream ++ ":" ++ s.config.From) with
      | Except.error err => Except.error err
      | Except.ok src => Except.ok src.Image.Name
    else
      Except.ok "dry-fake"
  match resolved with
  | Except.error err => (some ("could not resolve base image: " ++ err.message), c)
  | Except.ok fromImage =>
    let is := newImageStream toNamespace s.config.To.Name
    let ist := s.imageStreamTag fromImage
    let r1 := createImageStream s.client is dry c
    match fatal IsAlreadyExists r1.1 with
    | some err => (some ("could not create output imagestream: " ++ err.message), r1.2)
    | none =>
      let r2 := s.client.ImageStreamTagsDelete r1.2 ist.Namespace ist.Name
      match fatal IsNotFound r2.1 with
      | some err => (some ("could not remove output imagestreamtag: " ++ err.message), r2.2)
      | none =>
        let r3 := createImageStreamTag s.client ist dry r2.2
        match fatal IsAlreadyExists r3.1 with
        | some err => (some ("could not create output imagestreamtag: " ++ err.message), r3.2)
        | none => (none, r3.2)

/-- Go `(*outputImageTagStep).Done`. -/
def Done (s : outputImageTagStep σ) (c : σ) : Bool × Option GoError :=
  let toNamespace := s.namespace'
  match s.client.ImageStreamTagsGet c toNamespace (s.config.To.Name ++ ":" ++ s.config.To.Tag) with
  | Except.error err =>
    if IsNotFound err then
      (false, none)
    else
      (false, some ("could not retrieve output imagestreamtag: " ++ err.message))
  | Except.ok _ => (true, none)

/-- Go `(*outputImageTagStep).Requires`. -/
def Requires (s : outputImageTagStep σ) : List StepLink :=
  [InternalImageLink s.config.From, ReleaseImagesLink]

/-- Go `(*outputImageTagStep).Creates`. -/
def Creates (s : outputImageTagStep σ) : List StepLink :=
  if len s.config.To.As > 0 then
    [ExternalImageLink s.config.To,
     InternalImageLink (PipelineImageStreamTagReference s.config.To.As)]
  else
    [ExternalImageLink s.config.To]

/-- The resolver closure of `Provides` (source lines 99-113), run against catalog `c`. -/
def resolver (s : outputImageTagStep σ) (c : σ) : String × Option GoError :=
  match s.client.ImageStreamsGet c s.namespace' s.config.To.Name with
  | Except.error err => ("", some ("could not retrieve output imagestream: " ++ err.message))
  | Except.ok is =>
    if len is.Status.PublicDockerImageRepository > 0 then
      (is.Status.PublicDockerImageRepository ++ ":" ++ s.config.To.Tag, none)
    else if len is.Status.DockerImageRepository > 0 then
      (is.Status.DockerImageRepository ++ ":" ++ s.config.To.Tag, none)
    else
      ("", some ("image stream " ++ s.config.To.As ++ " has no accessible image registry value"))

/-- Go `(*outputImageTagStep).Provides`; a Go map literal is the list of its entries and a
nil map or nil link is `none`. -/
def Provides (s : outputImageTagStep σ) : Option (ParameterMap σ) × Option StepLink :=
  if len s.config.To.As == 0 then
    (none, none)
  else
    (some [("IMAGE_" ++ ToUpper (Replace s.config.To.As "-" "_" (-1)),
            s.resolver)],
     some (ExternalImageLink s.config.To))

/-- Go `(*outputImageTagStep).Name`. -/
def Name (s : outputImageTagStep σ) : String :=
  if len s.config.To.As == 0 then
    "[output:" ++ s.config.To.Name ++ ":" ++ s.config.To.Tag ++ "]"
  else
    s.config.To.As

end outputImageTagStep

/-! ## An in-memory catalog -/

/-- Modelled from the spec: the remote catalog behind the client, which is an external
service; it holds image streams identified by (namespace, name) and image stream tags
identified by (namespace, "name:tag"). -/
structure Catalog where
  streams : List ImageStream
  tags : List ImageStreamTag
  deriving DecidableEq

namespace Catalog

/-- The tag stored under (namespace, name), if any. -/
def findTag (c : Catalog) (ns name : String) : Option ImageStreamTag :=
  c.tags.find? fun t => t.Namespace == ns && t.Name == name

/-- The stream stored under (namespace, name), if any. -/
def findStream (c : Catalog) (ns name : String) : Option ImageStream :=
  c.streams.find? fun i => i.Namespace == ns && i.Name == name

end Catalog

/-- Modelled from the spec: the Remote Catalog Client, an external library.  A fetch or
deletion of an absent object signals `NotFound`, a creation of a present object signals
`AlreadyExists`, and no other error occurs; a created object is stored as given and a fetch
returns it as stored. -/
def memClient : Client Catalog where
  ImageStreamTagsGet c ns name :=
    match c.findTag ns name with
    | some t => Except.ok t
    | none => Except.error ⟨StatusReason.NotFound, "imagestreamtag " ++ name ++ " not found"⟩
  ImageStreamTagsCreate c ns ist :=
    match c.findTag ns ist.Name with
    | some _ =>
      (some ⟨StatusReason.AlreadyExists, "imagestreamtag " ++ ist.Name ++ " already exists"⟩, c)
    | none => (none, { c with tags := { ist with Namespace := ns } :: c.tags })
  ImageStreamTagsDelete c ns name :=
    match c.findTag ns name with
    | some _ =>
      (none, { c with tags := c.tags.filter fun t => !(t.Namespace == ns && t.Name == name) })
    | none => (some ⟨StatusReason.NotFound, "imagestreamtag " ++ name ++ " not found"⟩, c)
  ImageStreamsGet c ns name :=
    match c.findStream ns name with
    | some i => Except.ok i
    | none => Except.error ⟨StatusReason.NotFound, "imagestream " ++ name ++ " not found"⟩
  ImageStreamsCreate c ns is :=
    match c.findStream ns is.Name with
    | some _ =>
      (some ⟨StatusReason.AlreadyExists, "imagestream " ++ is.Name ++ " already exists"⟩, c)
    | none => (none, { c with streams := { is with Namespace := ns } :: c.streams })

/-- A catalog that cannot be reached: every call fails with an error that is neither
`NotFound` nor `AlreadyExists`. -/
def brokenClient : Client Unit where
  ImageStreamTagsGet _ _ _ := Except.error ⟨StatusReason.Other, "connection refused"⟩
  ImageStreamTagsCreate c _ _ := (some ⟨StatusReason.Other, "connection refused"⟩, c)
  ImageStreamTagsDelete c _ _ := (some ⟨StatusReason.Other, "connection refused"⟩, c)
  ImageStreamsGet _ _ _ := Except.error ⟨StatusReason.Other, "connection refused"⟩
  ImageStreamsCreate c _ _ := (some ⟨StatusReason.Other, "connection refused"⟩, c)

/-- The output-tag step with the given configuration and job, run against the in-memory
catalog. -/
def memStep (config : OutputImageTagStepConfiguration) (jobSpec : JobSpec) :
    outputImageTagStep Catalog :=
  { config := config, client := memClient, jobSpec := jobSpec }

/-- The step of the running example: "src" is tagged into stable:latest. -/
def exampleStep : outputImageTagStep Catalog :=
  { config := { From := "src", To := { Namespace := "", Name := "stable", Tag := "latest", As := "" } }
    client := memClient
    jobSpec := { Namespace := "ns" } }

/-- The pipeline tag "pipeline:src" of the running example, resolving to image `id`. -/
def pipelineTag (id : String) : ImageStreamTag :=
  { Namespace := "ns", Name := "pipeline:src", Tag := none, Image := { Name := id } }

/-- The running example with the alias "my-app" declared. -/
def aliasStep : outputImageTagStep Catalog :=
  { exampleStep with
    config := { From := "src", To := { Namespace := "", Name := "stable", Tag := "latest", As := "my-app" } } }

/-- The running example with the alias "café-app" declared, which is not pure ASCII. -/
def cafeStep : outputImageTagStep Catalog :=
  { exampleStep with
    config := { From := "src", To := { Namespace := "", Name := "stable", Tag := "latest", As := "café-app" } } }

/-- The running example against a catalog that cannot be reached. -/
def brokenStep : outputImageTagStep Unit :=
  { config := exampleStep.config, client := brokenClient, jobSpec := exampleStep.jobSpec }

/-- A catalog that holds the target tag stable:latest of the running example, pointing at the
image "old", and nothing else. -/
def staleCatalog : Catalog :=
  { streams := []
    tags := [newImageStreamTag "ns" "pipeline" "old" "ns" "stable" "latest"] }

/-- The target stream of the running example with the given registry values in its status. -/
def stableStream (internal pub : String) : ImageStream :=
  { Namespace := "ns", Name := "stable"
    Status := { DockerImageRepository := internal, PublicDockerImageRepository := pub } }

/-- A catalog that holds the target stream of the running example and nothing else. -/
def streamCatalog (internal pub : String) : Catalog :=
  { streams := [stableStream internal pub], tags := [] }

/-- A catalog that holds the old target tag of `staleCatalog` together with the pipeline tag
"pipeline:src", which resolves to the image "new". -/
def promotedCatalog : Catalog :=
  { streams := []
    tags := [newImageStreamTag "ns" "pipeline" "old" "ns" "stable" "latest", pipelineTag "new"] }

/-- A catalog that holds the pipeline tag "pipeline:src", resolving to the image "new", and
nothing else. -/
def sourceCatalog : Catalog :=
  { streams := [], tags := [pipelineTag "new"] }

/-- A catalog whose tag stable:latest was imported from an external registry. -/
def importedCatalog : Catalog :=
  { streams := [stableStream "" ""]
    tags := [{ Namespace := "ns", Name := "stable:latest"
               Tag := some
                 { ReferencePolicy := { Typ := TagReferencePolicyType.SourceTagReferencePolicy }
                   From := some { Kind := "DockerImage", Name := "quay.io/org/app:v1",
                                  Namespace := "" } }
               Image := { Name := "sha256:123" } }] }

/-! ## Basic facts -/

theorem len_eq_zero_iff (s : String) : len s = 0 ↔ s = "" := by
  obtain ⟨cs⟩ := s
  cases cs with
  | nil => simp [len, String.utf8ByteSize, String.utf8ByteSize.go]
  | cons c cs =>
    have hc := c.utf8Size_pos
    have hne : String.mk (c :: cs) ≠ "" := by
      intro h
      have := congrArg String.data h
      simp at this
    simp only [len, String.utf8ByteSize, String.utf8ByteSize.go, hne, iff_false]
    omega

theorem len_pos_iff (s : String) : 0 < len s ↔ s ≠ "" := by
  rw [Nat.pos_iff_ne_zero, Ne, len_eq_zero_iff]

/-! ### The in-memory catalog -/

namespace Catalog

theorem findTag_filter_self (c : Catalog) (ns name : String) :
    findTag { c with tags := c.tags.filter fun t => !(t.Namespace == ns && t.Name == name) }
      ns name = none := by
  simp only [findTag, List.find?_eq_none, List.mem_filter]
  rintro t ⟨_, ht⟩
  by_cases h1 : t.Namespace = ns <;> by_cases h2 : t.Name = name <;> simp_all

theorem filter_of_findTag_none (c : Catalog) (ns name : String)
    (h : c.findTag ns name = none) :
    (c.tags.filter fun t => !(t.Namespace == ns && t.Name == name)) = c.tags := by
  simp only [findTag, List.find?_eq_none] at h
  rw [List.filter_eq_self]
  intro t ht
  have := h t ht
  by_cases h1 : t.Namespace = ns <;> by_cases h2 : t.Name = name <;> simp_all

theorem get_eq (c : Catalog) (ns name : String) :
    memClient.ImageStreamTagsGet c ns name =
      match c.findTag ns name with
      | some t => Except.ok t
      | none =>
        Except.error ⟨StatusReason.NotFound, "imagestreamtag " ++ name ++ " not found"⟩ :=
  rfl

theorem create_eq (c : Catalog) (ns : String) (ist : ImageStreamTag) :
    memClient.ImageStreamTagsCreate c ns ist =
      match c.findTag ns ist.Name with
      | some _ =>
        (some ⟨StatusReason.AlreadyExists,
          "imagestreamtag " ++ ist.Name ++ " already exists"⟩, c)
      | none => (none, { c with tags := { ist with Namespace := ns } :: c.tags }) :=
  rfl

theorem delete_eq (c : Catalog) (ns name : String) :
    memClient.ImageStreamTagsDelete c ns name =
      match c.findTag ns name with
      | some _ =>
        (none,
          { c with tags := c.tags.filter fun t => !(t.Namespace == ns && t.Name == name) })
      | none =>
        (some ⟨StatusReason.NotFound, "imagestreamtag " ++ name ++ " not found"⟩, c) :=
  rfl

theorem createStream_eq (c : Catalog) (ns : String) (is : ImageStream) :
    memClient.ImageStreamsCreate c ns is =
      match c.findStream ns is.Name with
      | some _ =>
        (some ⟨StatusReason.AlreadyExists, "imagestream " ++ is.Name ++ " already exists"⟩, c)
      | none => (none, { c with streams := { is with Namespace := ns } :: c.streams }) :=
  rfl

theorem createStream_tolerated (c : Catalog) (ns : String) (is : ImageStream) :
    fatal IsAlreadyExists (memClient.ImageStreamsCreate c ns is).1 = none := by
  rw [createStream_eq]
  cases c.findStream ns is.Name <;> simp [fatal, IsAlreadyExists]

theorem createStream_snd (c : Catalog) (ns : String) (is : ImageStream) :
    (memClient.ImageStreamsCreate c ns is).2 =
      { streams :=
          match c.findStream ns is.Name with
          | some _ => c.streams
          | none => { is with Namespace := ns } :: c.streams
        tags := c.tags } := by
  rw [createStream_eq]
  cases c.findStream ns is.Name <;> rfl

theorem delete_tolerated (c : Catalog) (ns name : String) :
    fatal IsNotFound (memClient.ImageStreamTagsDelete c ns name).1 = none := by
  rw [delete_eq]
  cases c.findTag ns name <;> simp [fatal, IsNotFound]

theorem delete_snd (c : Catalog) (ns name : String) :
    (memClient.ImageStreamTagsDelete c ns name).2 =
      { c with tags := c.tags.filter fun t => !(t.Namespace == ns && t.Name == name) } := by
  rw [delete_eq]
  cases h : c.findTag ns name with
  | some t => rfl
  | none => simp only [filter_of_findTag_none c ns name h]

theorem create_of_absent (c : Catalog) (ns : String) (ist : ImageStreamTag)
    (h : c.findTag ns ist.Name = none) :
    memClient.ImageStreamTagsCreate c ns ist =
      (none, { c with tags := { ist with Namespace := ns } :: c.tags }) := by
  rw [create_eq, h]

theorem findTag_filter_other (c : Catalog) (ns name ns' name' : String)
    (h : ¬ (ns' = ns ∧ name' = name)) :
    findTag { c with tags := c.tags.filter fun t => !(t.Namespace == ns && t.Name == name) }
      ns' name' = c.findTag ns' name' := by
  simp only [findTag, List.find?_filter]
  congr 1
  funext t
  by_cases h1 : t.Namespace = ns <;> by_cases h2 : t.Name = name <;>
    by_cases h3 : t.Namespace = ns' <;> by_cases h4 : t.Name = name' <;> simp_all

theorem findTag_cons_other (streams : List ImageStream) (tags : List ImageStreamTag)
    (t : ImageStreamTag) (ns name : String) (h : ¬ (t.Namespace = ns ∧ t.Name = name)) :
    findTag { streams := streams, tags := t :: tags } ns name =
      findTag { streams := streams, tags := tags } ns name := by
  have : (t.Namespace == ns && t.Name == name) = false := by
    by_cases h1 : t.Namespace = ns <;> by_cases h2 : t.Name = name <;> simp_all
  simp [findTag, List.find?_cons, this]

theorem findTag_cons_self (streams : List ImageStream) (tags : List ImageStreamTag)
    (t : ImageStreamTag) :
    findTag { streams := streams, tags := t :: tags } t.Namespace t.Name = some t := by
  simp [findTag]

end Catalog

/-! ### `strings.Replace` of a single rune -/

theorem Index_cons_single (a c : Char) (s : List Char) :
    Index (c :: s) [a] = if c = a then some 0 else (Index s [a]).map (· + 1) := by
  by_cases hc : c = a <;> simp [Index, HasPrefix, hc]

theorem Index_single (a b : Char) (s : List Char) :
    match Index s [a] with
    | none => s.map (fun c => if c = a then b else c) = s
    | some i =>
      s.map (fun c => if c = a then b else c) =
        s.take i ++ b :: (s.drop (i + 1)).map (fun c => if c = a then b else c) := by
  induction s with
  | nil => simp [Index]
  | cons c s ih =>
    rw [Index_cons_single]
    by_cases hc : c = a
    · simp [hc]
    · cases hi : Index s [a] with
      | none =>
        rw [hi] at ih
        simp [hc, ih]
      | some i =>
        rw [hi] at ih
        simp only [hc, if_false, Option.map_some', List.map_cons, List.take_succ_cons,
          List.drop_succ_cons, List.cons_append, List.cons.injEq, true_and]
        exact ih

theorem Index_single_lt (a : Char) (s : List Char) (i : Nat) (h : Index s [a] = some i) :
    i < s.length := by
  induction s generalizing i with
  | nil => simp [Index] at h
  | cons c s ih =>
    rw [Index_cons_single] at h
    by_cases hc : c = a
    · simp only [hc, if_true, Option.some.injEq] at h
      simp [← h]
    · simp only [hc, if_false, Option.map_eq_some'] at h
      obtain ⟨j, hj, rfl⟩ := h
      simpa using ih j hj

theorem replaceLoop_single (a b : Char) (fuel : Nat) (s : List Char) (i0 : Bool)
    (h : s.length < fuel) :
    replaceLoop [a] [b] (countLoop [a] fuel s) i0 s =
      s.map (fun c => if c = a then b else c) := by
  induction fuel generalizing s i0 with
  | zero => omega
  | succ fuel ih =>
    have hs := Index_single a b s
    cases hi : Index s [a] with
    | none =>
      rw [hi] at hs
      simp [countLoop, hi, replaceLoop, hs]
    | some i =>
      rw [hi] at hs
      have hlt := Index_single_lt a s i hi
      have hdrop : (s.drop (i + 1)).length < fuel := by
        simp only [List.length_drop]
        omega
      simp only [countLoop, hi, List.length_singleton, replaceLoop, List.isEmpty_cons,
        Bool.false_eq_true, if_false, Option.getD_some]
      rw [ih _ false hdrop, hs]
      simp

theorem Replace_dash (s : String) : Replace s "-" "_" (-1) = underscoreNormalized s := by
  have hloop := replaceLoop_single '-' '_' (s.data.length + 1) s.data true (by omega)
  have h1 : (("-" : String) == "_") = false := by decide
  have h2 : decide ((-1 : Int) < 0) = true := by decide
  have hd : ("-" : String).data = ['-'] := rfl
  have hu : ("_" : String).data = ['_'] := rfl
  simp only [Replace, h1, h2, Bool.false_or, Bool.true_or, hd, hu, Count, List.isEmpty_cons,
    Bool.false_eq_true, if_false, if_true, underscoreNormalized]
  by_cases hm : countLoop ['-'] (s.data.length + 1) s.data = 0
  · rw [hm, replaceLoop] at hloop
    rw [hm, ← hloop]
    rfl
  · have h3 : (countLoop ['-'] (s.data.length + 1) s.data == 0) = false := by simpa using hm
    rw [h3, hloop]
    rfl

/-! ### `strings.ToUpper` -/

theorem CaseRanges_cons :
    CaseRanges = CaseRange.mk 0x0061 0x007A (some (-32)) :: CaseRanges.tail :=
  rfl

set_option maxRecDepth 100000 in
theorem CaseRanges_tail_above : ∀ cr ∈ CaseRanges.tail, 128 ≤ cr.Lo := by
  decide

theorem toUpperCase_ascii (n : Nat) (h : n < 128) :
    toUpperCase n CaseRanges = if 97 ≤ n ∧ n ≤ 122 then n - 32 else n := by
  have ht := CaseRanges_tail_above
  rw [CaseRanges_cons]
  generalize CaseRanges.tail = tl at ht ⊢
  unfold toUpperCase
  by_cases hn : 97 ≤ n ∧ n ≤ 122
  · rw [List.find?_cons_of_pos _ (by simpa using hn), if_pos hn]
    simp only
    omega
  · rw [List.find?_cons_of_neg _ (by simpa using hn), if_neg hn]
    have hnone : tl.find? (fun cr => decide (cr.Lo ≤ n) && decide (n ≤ cr.Hi)) = none := by
      rw [List.find?_eq_none]
      intro cr hcr
      have := ht cr hcr
      simp only [Bool.and_eq_true, decide_eq_true_eq, not_and]
      omega
    rw [hnone]

theorem Char_le_iff (c d : Char) : c ≤ d ↔ c.toNat ≤ d.toNat :=
  Iff.rfl

theorem unicodeToUpper_ascii (c : Char) (h : c.toNat < 128) :
    (if 'a' ≤ c ∧ c ≤ 'z' then Char.ofNat (c.toNat - 32) else c) =
      Char.ofNat (toUpperCase c.toNat CaseRanges) := by
  rw [toUpperCase_ascii _ h]
  have ha : ('a' : Char).toNat = 97 := rfl
  have hz : ('z' : Char).toNat = 122 := rfl
  simp only [Char_le_iff, ha, hz]
  split
  · rfl
  · exact (Char.ofNat_toNat c).symm

theorem unicodeToUpper_eq (c : Char) :
    unicodeToUpper c = Char.ofNat (toUpperCase c.toNat CaseRanges) := by
  unfold unicodeToUpper
  by_cases h : c.toNat ≤ 0x7F
  · rw [if_pos h]
    exact unicodeToUpper_ascii c (by omega)
  · rw [if_neg h]

theorem ToUpper_eq_upperCased (s : String) : ToUpper s = upperCased s := by
  unfold ToUpper upperCased
  split
  · rename_i h
    congr 1
    apply List.map_congr_left
    intro c hc
    have := List.all_eq_true.1 h c hc
    exact unicodeToUpper_ascii c (by simpa [isASCII] using this)
  · congr 1
    apply List.map_congr_left
    intro c _
    exact unicodeToUpper_eq c

theorem upperCased_ascii (s : String) (h : s.data.all isASCII = true) :
    upperCased s = String.mk (s.data.map Char.toUpper) := by
  unfold upperCased
  congr 1
  apply List.map_congr_left
  intro c hc
  have hlt : c.toNat < 128 := by simpa [isASCII] using List.all_eq_true.1 h c hc
  rw [toUpperCase_ascii _ hlt]
  unfold Char.toUpper
  split
  · rename_i hl
    rw [if_pos (by simpa using hl)]
  · rename_i hl
    rw [if_neg (by simpa using hl)]
    exact Char.ofNat_toNat c

theorem underscoreNormalized_ascii (s : String) (h : s.data.all isASCII = true) :
    (underscoreNormalized s).data.all isASCII = true := by
  simp only [underscoreNormalized, List.all_eq_true, List.mem_map] at h ⊢
  rintro c ⟨d, hd, rfl⟩
  split
  · decide
  · exact h d hd

namespace outputImageTagStep

variable {σ : Type}

theorem namespace_eq (s : outputImageTagStep σ) :
    s.namespace' =
      if s.config.To.Namespace ≠ "" then s.config.To.Namespace else s.jobSpec.Namespace := by
  unfold namespace'
  by_cases h : s.config.To.Namespace = ""
  · simp [h, (len_eq_zero_iff _).2]
  · simp [h, (len_eq_zero_iff _)]

/-- In dry-run mode `Run` still sends the deletion of the target tag to the catalog: the
catalog after a dry run is the one the deletion leaves behind. -/
theorem Run_dry_catalog (s : outputImageTagStep σ) (c : σ) :
    (s.Run true c).2 =
      (s.client.ImageStreamTagsDelete c s.namespace'
        (s.config.To.Name ++ ":" ++ s.config.To.Tag)).2 := by
  simp only [Run, createImageStream, createImageStreamTag, imageStreamTag, newImageStreamTag,
    fatal, Bool.not_true, if_true]
  simp only [Bool.false_eq_true, if_false]
  split <;> rfl

/-! ## Claims -/

/-- C1 (fails on the code): a dry run of the running example against a catalog holding the
target tag returns no error and removes the tag from the catalog, so the catalog after the
dry run differs from the catalog before it: `Done` answered true before and answers false
after. -/
theorem Run_dry_deletes_target_tag :
    Run exampleStep true staleCatalog = (none, { streams := [], tags := [] }) ∧
      (Run exampleStep true staleCatalog).2 ≠ staleCatalog ∧
      Done exampleStep staleCatalog = (true, none) ∧
      Done exampleStep (Run exampleStep true staleCatalog).2 = (false, none) := by
  decide

/-- C2: a non-dry-run `Run` returns no error exactly when the source pipeline tag is fetched,
the creation of the target stream returns no error or `AlreadyExists`, the deletion of the
target tag (on the catalog left by the stream creation) returns no error or `NotFound`, and
the creation of the target tag (on the catalog left by the deletion) returns no error or
`AlreadyExists`; in every other case it returns an error. -/
theorem Run_succeeds_iff (s : outputImageTagStep σ) (c : σ) :
    (s.Run false c).1 = none ↔
      ∃ src, s.client.ImageStreamTagsGet c s.jobSpec.Namespace
          (PipelineImageStream ++ ":" ++ s.config.From) = Except.ok src ∧
        let ns := if s.config.To.Namespace ≠ "" then s.config.To.Namespace
          else s.jobSpec.Namespace
        let ist := newImageStreamTag s.jobSpec.Namespace PipelineImageStream src.Image.Name
          ns s.config.To.Name s.config.To.Tag
        let r1 := s.client.ImageStreamsCreate c ns (newImageStream ns s.config.To.Name)
        let r2 := s.client.ImageStreamTagsDelete r1.2 ns
          (s.config.To.Name ++ ":" ++ s.config.To.Tag)
        let r3 := s.client.ImageStreamTagsCreate r2.2 ns ist
        (∀ e, r1.1 = some e → e.reason = StatusReason.AlreadyExists) ∧
        (∀ e, r2.1 = some e → e.reason = StatusReason.NotFound) ∧
        (∀ e, r3.1 = some e → e.reason = StatusReason.AlreadyExists) := by
  rw [← namespace_eq]
  simp only [Run, createImageStream, createImageStreamTag, imageStreamTag, newImageStreamTag,
    newImageStream, Bool.not_false, if_true, Bool.false_eq_true, if_false]
  cases hget : s.client.ImageStreamTagsGet c s.jobSpec.Namespace
      (PipelineImageStream ++ ":" ++ s.config.From) with
  | error err => simp
  | ok src =>
    simp only [Except.ok.injEq, exists_eq_left']
    generalize s.client.ImageStreamsCreate c s.namespace' _ = r1
    obtain ⟨e1, c1⟩ := r1
    generalize s.client.ImageStreamTagsDelete c1 s.namespace' _ = r2
    obtain ⟨e2, c2⟩ := r2
    generalize s.client.ImageStreamTagsCreate c2 s.namespace' _ = r3
    obtain ⟨e3, c3⟩ := r3
    rcases e1 with _ | ⟨⟨k1, m1⟩⟩ <;> rcases e2 with _ | ⟨⟨k2, m2⟩⟩ <;>
      rcases e3 with _ | ⟨⟨k3, m3⟩⟩ <;>
      (try cases k1) <;> (try cases k2) <;> (try cases k3) <;>
      simp [fatal, IsAlreadyExists, IsNotFound]

/-- C6: `Done` fetches the tag "<To.Name>:<To.Tag>" in the target namespace (the override
namespace when it is non-empty, the job namespace otherwise); it returns (true, no error) when
the fetch succeeds, (false, no error) when the fetch signals `NotFound`, and (false, error)
for every other fetch error. -/
theorem Done_probe (s : outputImageTagStep σ) (c : σ) (r : Except APIError ImageStreamTag)
    (hr : s.client.ImageStreamTagsGet c
      (if s.config.To.Namespace ≠ "" then s.config.To.Namespace else s.jobSpec.Namespace)
      (s.config.To.Name ++ ":" ++ s.config.To.Tag) = r) :
    (∀ t, r = Except.ok t → s.Done c = (true, none)) ∧
      (∀ e, r = Except.error e → e.reason = StatusReason.NotFound →
        s.Done c = (false, none)) ∧
      (∀ e, r = Except.error e → e.reason ≠ StatusReason.NotFound →
        s.Done c =
          (false, some ("could not retrieve output imagestreamtag: " ++ e.message))) := by
  rw [← namespace_eq] at hr
  refine ⟨?_, ?_, ?_⟩
  · intro t ht
    simp [Done, hr, ht]
  · intro e he hnf
    simp [Done, hr, he, IsNotFound, hnf]
  · intro e he hnf
    simp [Done, hr, he, IsNotFound, hnf]

/-- Witness of C6 on the running example: the target tag is absent from the empty catalog,
present in `staleCatalog`, and the unreachable catalog fails the fetch. -/
theorem Done_probe_witness :
    Done exampleStep { streams := [], tags := [] } = (false, none) ∧
      Done exampleStep staleCatalog = (true, none) ∧
      Done brokenStep () =
        (false, some "could not retrieve output imagestreamtag: connection refused") :=
  ⟨(Done_probe exampleStep { streams := [], tags := [] } _ rfl).2.1 _ rfl (by decide),
   (Done_probe exampleStep staleCatalog _ rfl).1 _ rfl,
   (Done_probe brokenStep () _ rfl).2.2 _ rfl (by decide)⟩

/-- C7: `Creates` contains the external-tag link of the target `To`; it contains an
internal-artifact link exactly when the alias `To.As` is non-empty, and that link is the one
for the alias; it contains no other link. -/
theorem Creates_links (s : outputImageTagStep σ) :
    ExternalImageLink s.config.To ∈ s.Creates ∧
      (∀ n, StepLink.InternalArtifact n ∈ s.Creates ↔
        (s.config.To.As ≠ "" ∧ n = s.config.To.As)) ∧
      (InternalImageLink s.config.To.As ∈ s.Creates ↔ s.config.To.As ≠ "") ∧
      (∀ l, l ∈ s.Creates →
        l = ExternalImageLink s.config.To ∨ l = InternalImageLink s.config.To.As) := by
  unfold Creates
  by_cases h : s.config.To.As = ""
  · have h0 : ¬ len s.config.To.As > 0 := by
      rw [gt_iff_lt, len_pos_iff]
      simpa using h
    simp only [if_neg h0]
    simp [h, ExternalImageLink, InternalImageLink]
  · have h0 : len s.config.To.As > 0 := (len_pos_iff _).2 h
    simp only [if_pos h0]
    simp [h, ExternalImageLink, InternalImageLink, PipelineImageStreamTagReference]

/-- C10: `Name` is the alias `To.As` when an alias is declared and
"[output:<To.Name>:<To.Tag>]" when none is; two steps that agree on the alias, the name and
the tag of their targets have the same `Name`, and two steps that declare the same alias have
the same `Name` whatever their targets. -/
theorem Name_eq (s : outputImageTagStep σ) :
    (s.config.To.As ≠ "" → s.Name = s.config.To.As) ∧
      (s.config.To.As = "" →
        s.Name = "[output:" ++ s.config.To.Name ++ ":" ++ s.config.To.Tag ++ "]") ∧
      (∀ (τ : Type) (s' : outputImageTagStep τ), s'.config.To.As = s.config.To.As →
        s'.config.To.Name = s.config.To.Name → s'.config.To.Tag = s.config.To.Tag →
        s'.Name = s.Name) ∧
      (∀ (τ : Type) (s' : outputImageTagStep τ), s.config.To.As ≠ "" →
        s'.config.To.As = s.config.To.As → s'.Name = s.Name) := by
  refine ⟨?_, ?_, ?_, ?_⟩
  · intro h
    simp [Name, len_eq_zero_iff, h]
  · intro h
    simp [Name, len_eq_zero_iff, h]
  · intro τ s' h1 h2 h3
    simp [Name, h1, h2, h3]
  · intro τ s' h h1
    simp [Name, len_eq_zero_iff, h1, h]

/-- Witness of C10: the alias "my-app" names the step; without it, the step tagging into
stable:latest is named "[output:stable:latest]". -/
theorem Name_eq_witness :
    Name aliasStep = "my-app" ∧ Name exampleStep = "[output:stable:latest]" ∧
      Name brokenStep = Name exampleStep :=
  ⟨(Name_eq aliasStep).1 (by decide), (Name_eq exampleStep).2.1 rfl,
   (Name_eq exampleStep).2.2.1 Unit brokenStep rfl rfl rfl⟩

/-- C9: with an alias declared and the target stream fetched from the catalog, the resolver
of the provided parameter returns "<public registry repository>:<To.Tag>" when the stream
status has a non-empty public registry value, otherwise
"<internal registry repository>:<To.Tag>" when it has a non-empty internal registry value, and
fails with an error when the stream has neither. -/
theorem resolver_registry (s : outputImageTagStep σ) (c : σ)
    (is : ImageStream) (hAs : s.config.To.As ≠ "")
    (hget : s.client.ImageStreamsGet c
      (if s.config.To.Namespace ≠ "" then s.config.To.Namespace else s.jobSpec.Namespace)
      s.config.To.Name = Except.ok is) :
    (∃ name, s.Provides.1 = some [(name, s.resolver)]) ∧
      (is.Status.PublicDockerImageRepository ≠ "" →
        s.resolver c =
          (is.Status.PublicDockerImageRepository ++ ":" ++ s.config.To.Tag, none)) ∧
      (is.Status.PublicDockerImageRepository = "" → is.Status.DockerImageRepository ≠ "" →
        s.resolver c = (is.Status.DockerImageRepository ++ ":" ++ s.config.To.Tag, none)) ∧
      (is.Status.PublicDockerImageRepository = "" → is.Status.DockerImageRepository = "" →
        s.resolver c = ("", some ("image stream " ++ s.config.To.As ++
          " has no accessible image registry value"))) := by
  rw [← namespace_eq] at hget
  refine ⟨⟨"IMAGE_" ++ ToUpper (Replace s.config.To.As "-" "_" (-1)), ?_⟩, ?_, ?_, ?_⟩
  · simp [Provides, len_eq_zero_iff, hAs]
  · intro hp
    have : len is.Status.PublicDockerImageRepository > 0 := (len_pos_iff _).2 hp
    simp [resolver, hget, this]
  · intro hp hd
    have h1 : ¬ len is.Status.PublicDockerImageRepository > 0 := by
      rw [gt_iff_lt, len_pos_iff]
      simpa using hp
    have h2 : len is.Status.DockerImageRepository > 0 := (len_pos_iff _).2 hd
    simp only [resolver, hget, if_neg h1, if_pos h2]
  · intro hp hd
    have h1 : ¬ len is.Status.PublicDockerImageRepository > 0 := by
      rw [gt_iff_lt, len_pos_iff]
      simpa using hp
    have h2 : ¬ len is.Status.DockerImageRepository > 0 := by
      rw [gt_iff_lt, len_pos_iff]
      simpa using hd
    simp only [resolver, hget, if_neg h1, if_neg h2]

/-- Witness of C9 on the running example with the alias "my-app": a stream with both registry
values resolves to the public one, a stream with the internal value only resolves to it, and
a stream with neither fails. -/
theorem resolver_registry_witness :
    resolver aliasStep (streamCatalog "internal.svc:5000/ns/stable"
        "registry.example.com/ns/stable") =
        ("registry.example.com/ns/stable:latest", none) ∧
      resolver aliasStep (streamCatalog "internal.svc:5000/ns/stable" "") =
        ("internal.svc:5000/ns/stable:latest", none) ∧
      resolver aliasStep (streamCatalog "" "") =
        ("", some "image stream my-app has no accessible image registry value") :=
  ⟨(resolver_registry aliasStep
      (streamCatalog "internal.svc:5000/ns/stable" "registry.example.com/ns/stable")
      (stableStream "internal.svc:5000/ns/stable" "registry.example.com/ns/stable")
      (by decide) (by rfl)).2.1 (by decide),
   (resolver_registry aliasStep (streamCatalog "internal.svc:5000/ns/stable" "")
      (stableStream "internal.svc:5000/ns/stable" "") (by decide) (by rfl)).2.2.1 rfl
      (by decide),
   (resolver_registry aliasStep (streamCatalog "" "") (stableStream "" "")
      (by decide) (by rfl)).2.2.2 rfl rfl⟩

/-- C8: `Provides` returns a nil parameter map and a nil link when no alias is declared; when
an alias is declared the parameter map has exactly one entry, whose name is "IMAGE_" followed
by the alias with every "-" replaced by "_" and then upper-cased: every rune is replaced by its
Unicode upper-case mapping, which for a pure ASCII alias is `Char.toUpper` on every
character. -/
theorem Provides_parameters (s : outputImageTagStep σ) :
    (s.config.To.As = "" → s.Provides = (none, none)) ∧
      (s.config.To.As ≠ "" →
        ∃ f, s.Provides.1 =
          some [("IMAGE_" ++ upperCased (underscoreNormalized s.config.To.As), f)]) ∧
      (s.config.To.As ≠ "" → s.config.To.As.data.all isASCII = true →
        ∃ f, s.Provides.1 =
          some [("IMAGE_" ++
            String.mk ((underscoreNormalized s.config.To.As).data.map Char.toUpper), f)]) := by
  refine ⟨?_, ?_, ?_⟩
  · intro h
    simp [Provides, len_eq_zero_iff, h]
  · intro h
    refine ⟨s.resolver, ?_⟩
    simp [Provides, len_eq_zero_iff, h, Replace_dash, ToUpper_eq_upperCased]
  · intro h hascii
    refine ⟨s.resolver, ?_⟩
    rw [← upperCased_ascii _ (underscoreNormalized_ascii _ hascii)]
    simp [Provides, len_eq_zero_iff, h, Replace_dash, ToUpper_eq_upperCased]

/-- Witness of C8 on the running example: without an alias nothing is provided; with the
alias "my-app" the one parameter is named "IMAGE_MY_APP", and with the alias "café-app" it is
named "IMAGE_CAFÉ_APP". -/
theorem Provides_parameters_witness :
    Provides exampleStep = (none, none) ∧
      (∃ f, (Provides aliasStep).1 = some [("IMAGE_MY_APP", f)]) ∧
      (∃ f, (Provides cafeStep).1 = some [("IMAGE_CAFÉ_APP", f)]) ∧
      ∃ f, (Provides aliasStep).1 = some [("IMAGE_" ++ "MY_APP", f)] :=
  ⟨(Provides_parameters exampleStep).1 rfl,
   (Provides_parameters aliasStep).2.1 (by decide),
   (Provides_parameters cafeStep).2.1 (by decide),
   (Provides_parameters aliasStep).2.2 (by decide) (by decide)⟩

theorem memStep_client (cfg : OutputImageTagStepConfiguration) (job : JobSpec) :
    (memStep cfg job).client = memClient :=
  rfl

theorem memStep_config (cfg : OutputImageTagStepConfiguration) (job : JobSpec) :
    (memStep cfg job).config = cfg :=
  rfl

theorem memStep_jobSpec (cfg : OutputImageTagStepConfiguration) (job : JobSpec) :
    (memStep cfg job).jobSpec = job :=
  rfl

theorem imageStreamTag_Namespace (s : outputImageTagStep σ) (fromImage : String) :
    (s.imageStreamTag fromImage).Namespace = s.namespace' :=
  rfl

theorem imageStreamTag_Name (s : outputImageTagStep σ) (fromImage : String) :
    (s.imageStreamTag fromImage).Name = s.config.To.Name ++ ":" ++ s.config.To.Tag :=
  rfl

/-- A non-dry `Run` whose four catalog calls succeed or fail tolerably returns no error and
leaves the catalog of the last call. -/
theorem Run_false_ok (s : outputImageTagStep σ) (c : σ) (src : ImageStreamTag)
    (hget : s.client.ImageStreamTagsGet c s.jobSpec.Namespace
      (PipelineImageStream ++ ":" ++ s.config.From) = Except.ok src)
    (r1 r2 r3 : Option APIError × σ)
    (h1 : s.client.ImageStreamsCreate c s.namespace'
      (newImageStream s.namespace' s.config.To.Name) = r1)
    (t1 : fatal IsAlreadyExists r1.1 = none)
    (h2 : s.client.ImageStreamTagsDelete r1.2 s.namespace'
      (s.config.To.Name ++ ":" ++ s.config.To.Tag) = r2)
    (t2 : fatal IsNotFound r2.1 = none)
    (h3 : s.client.ImageStreamTagsCreate r2.2 s.namespace'
      (s.imageStreamTag src.Image.Name) = r3)
    (t3 : fatal IsAlreadyExists r3.1 = none) :
    s.Run false c = (none, r3.2) := by
  have e1 : (newImageStream s.namespace' s.config.To.Name).Namespace = s.namespace' := rfl
  simp only [Run, createImageStream, createImageStreamTag, hget, Bool.not_false, if_true,
    Bool.false_eq_true, if_false, imageStreamTag_Namespace, imageStreamTag_Name, e1, h1, t1,
    h2, t2, h3, t3]

/-- The catalog a successful non-dry `Run` leaves behind in the in-memory catalog: the
target stream is added unless present, and the target tag is replaced by the one built from
the resolved source image. -/
theorem Run_mem (cfg : OutputImageTagStepConfiguration) (job : JobSpec) (c : Catalog)
    (src : ImageStreamTag)
    (h : c.findTag job.Namespace (PipelineImageStream ++ ":" ++ cfg.From) = some src) :
    Run (memStep cfg job) false c =
      (none,
        { streams :=
            match c.findStream (memStep cfg job).namespace' cfg.To.Name with
            | some _ => c.streams
            | none => newImageStream (memStep cfg job).namespace' cfg.To.Name :: c.streams
          tags := (memStep cfg job).imageStreamTag src.Image.Name ::
            c.tags.filter fun t => !(t.Namespace == (memStep cfg job).namespace' &&
              t.Name == cfg.To.Name ++ ":" ++ cfg.To.Tag) }) := by
  have hget : (memStep cfg job).client.ImageStreamTagsGet c (memStep cfg job).jobSpec.Namespace
      (PipelineImageStream ++ ":" ++ (memStep cfg job).config.From) = Except.ok src := by
    simp only [memStep_client, memStep_config, memStep_jobSpec, Catalog.get_eq, h]
  rw [Run_false_ok (memStep cfg job) c src hget _ _ _ rfl
    (Catalog.createStream_tolerated _ _ _) rfl (Catalog.delete_tolerated _ _ _) rfl]
  · simp only [memStep_client, memStep_config, Catalog.delete_snd, Catalog.createStream_snd]
    rw [Catalog.create_of_absent]
    · rfl
    · exact Catalog.findTag_filter_self _ _ _
  · simp only [memStep_client, memStep_config, Catalog.delete_snd, Catalog.createStream_snd]
    rw [Catalog.create_of_absent]
    · rfl
    · exact Catalog.findTag_filter_self _ _ _

theorem append_left_cancel (a x y : String) (h : a ++ x = a ++ y) : x = y := by
  have := congrArg String.data h
  simp only [String.data_append, List.append_cancel_left_eq] at this
  exact String.ext this

/-- A non-dry `Run` against the in-memory catalog fails when the source pipeline tag is
absent. -/
theorem Run_mem_unresolved (cfg : OutputImageTagStepConfiguration) (job : JobSpec)
    (c : Catalog)
    (h : c.findTag job.Namespace (PipelineImageStream ++ ":" ++ cfg.From) = none) :
    Run (memStep cfg job) false c =
      (some ("could not resolve base image: " ++ ("imagestreamtag " ++
        (PipelineImageStream ++ ":" ++ cfg.From) ++ " not found")), c) := by
  simp only [Run, memStep_client, memStep_config, memStep_jobSpec, Catalog.get_eq, h,
    Bool.not_false, if_true]

theorem findTag_of_get (c : Catalog) (ns name : String) (t : ImageStreamTag)
    (h : memClient.ImageStreamTagsGet c ns name = Except.ok t) : c.findTag ns name = some t := by
  rw [Catalog.get_eq] at h
  cases hf : c.findTag ns name with
  | none => simp [hf] at h
  | some u =>
    rw [hf] at h
    simpa using h

/-- C3: when the target tag exists in the catalog pointing at an old image and the source
pipeline tag resolves to a different image identifier, a non-dry `Run` succeeds, its deletion
finds and removes the old tag, its creation stores the new one without error, and fetching the
target tag afterwards returns the tag built by `newImageStreamTag` from the newly resolved
identifier (from "pipeline@<new id>" in the job namespace, reference policy local), which is
not the old tag.  Here `ns` is the target namespace and `new` the tag built from the resolved
identifier. -/
theorem Run_force_update (cfg : OutputImageTagStepConfiguration) (job : JobSpec) (c : Catalog)
    (old src new : ImageStreamTag) (oldID ns : String)
    (hns : ns = if cfg.To.Namespace ≠ "" then cfg.To.Namespace else job.Namespace)
    (hnew : new = newImageStreamTag job.Namespace PipelineImageStream src.Image.Name ns
      cfg.To.Name cfg.To.Tag)
    (hold : memClient.ImageStreamTagsGet c ns (cfg.To.Name ++ ":" ++ cfg.To.Tag) =
      Except.ok old)
    (hpoints : ∃ ref obj, old.Tag = some ref ∧ ref.From = some obj ∧
      obj.Name = PipelineImageStream ++ "@" ++ oldID)
    (hsrc : memClient.ImageStreamTagsGet c job.Namespace
      (PipelineImageStream ++ ":" ++ cfg.From) = Except.ok src)
    (hne : src.Image.Name ≠ oldID) :
    (Run (memStep cfg job) false c).1 = none ∧
      memClient.ImageStreamTagsGet (Run (memStep cfg job) false c).2 ns
        (cfg.To.Name ++ ":" ++ cfg.To.Tag) = Except.ok new ∧
      new ≠ old ∧
      new.Tag =
        some { ReferencePolicy := { Typ := TagReferencePolicyType.LocalTagReferencePolicy }
               From := some { Kind := "ImageStreamImage"
                              Name := PipelineImageStream ++ "@" ++ src.Image.Name
                              Namespace := job.Namespace } } ∧
      (memClient.ImageStreamTagsDelete
        (memClient.ImageStreamsCreate c ns (newImageStream ns cfg.To.Name)).2 ns
        (cfg.To.Name ++ ":" ++ cfg.To.Tag)).1 = none ∧
      memClient.ImageStreamTagsCreate
        (memClient.ImageStreamTagsDelete
          (memClient.ImageStreamsCreate c ns (newImageStream ns cfg.To.Name)).2 ns
          (cfg.To.Name ++ ":" ++ cfg.To.Tag)).2 ns new =
        (none, (Run (memStep cfg job) false c).2) := by
  have hn : (memStep cfg job).namespace' = ns := by
    rw [hns, namespace_eq]
    rfl
  subst hnew
  have hsrc' := findTag_of_get _ _ _ _ hsrc
  have hold' := findTag_of_get _ _ _ _ hold
  rw [Run_mem cfg job c src hsrc']
  simp only [hn, imageStreamTag, memStep_config, memStep_jobSpec]
  refine ⟨trivial, ?_, ?_, rfl, ?_, ?_⟩
  · rw [Catalog.get_eq]
    have := Catalog.findTag_cons_self
      (match c.findStream ns cfg.To.Name with
        | some _ => c.streams
        | none => newImageStream ns cfg.To.Name :: c.streams)
      (c.tags.filter fun t => !(t.Namespace == ns && t.Name == cfg.To.Name ++ ":" ++ cfg.To.Tag))
      (newImageStreamTag job.Namespace PipelineImageStream src.Image.Name ns cfg.To.Name
        cfg.To.Tag)
    simp only [newImageStreamTag] at this ⊢
    rw [this]
  · intro heq
    obtain ⟨ref, obj, h1, h2, h3⟩ := hpoints
    rw [← heq] at h1
    simp only [newImageStreamTag, Option.some.injEq] at h1
    rw [← h1] at h2
    simp only [Option.some.injEq] at h2
    rw [← h2] at h3
    exact hne (append_left_cancel _ _ _ h3)
  · rw [Catalog.delete_eq, Catalog.createStream_snd]
    have : Catalog.findTag
        { streams :=
            match c.findStream ns (newImageStream ns cfg.To.Name).Name with
            | some _ => c.streams
            | none => { newImageStream ns cfg.To.Name with Namespace := ns } :: c.streams
          tags := c.tags } ns (cfg.To.Name ++ ":" ++ cfg.To.Tag) = some old := hold'
    rw [this]
  · rw [Catalog.delete_snd, Catalog.createStream_snd, Catalog.create_of_absent]
    · rfl
    · exact Catalog.findTag_filter_self _ _ _

/-- Witness of C3 on the running example: stable:latest points at "old" and pipeline:src
resolves to "new". -/
theorem Run_force_update_witness :
    (Run exampleStep false promotedCatalog).1 = none ∧
      memClient.ImageStreamTagsGet (Run exampleStep false promotedCatalog).2 "ns"
        "stable:latest" = Except.ok (newImageStreamTag "ns" "pipeline" "new" "ns" "stable"
          "latest") :=
  have h := Run_force_update exampleStep.config exampleStep.jobSpec promotedCatalog
    (newImageStreamTag "ns" "pipeline" "old" "ns" "stable" "latest") (pipelineTag "new")
    (newImageStreamTag "ns" "pipeline" "new" "ns" "stable" "latest") "old" "ns"
    (by decide) (by rfl) (by rfl) ⟨_, _, rfl, rfl, rfl⟩ (by rfl) (by decide)
  ⟨h.1, h.2.1⟩

/-- After a successful non-dry `Run` against the in-memory catalog the target stream is
present. -/
theorem findStream_after_Run (cfg : OutputImageTagStepConfiguration) (job : JobSpec)
    (c : Catalog) (src : ImageStreamTag)
    (h : c.findTag job.Namespace (PipelineImageStream ++ ":" ++ cfg.From) = some src) :
    ∃ i, (Run (memStep cfg job) false c).2.findStream (memStep cfg job).namespace'
      cfg.To.Name = some i := by
  rw [Run_mem cfg job c src h]
  cases hf : c.findStream (memStep cfg job).namespace' cfg.To.Name with
  | some i => exact ⟨i, hf⟩
  | none =>
    refine ⟨newImageStream (memStep cfg job).namespace' cfg.To.Name, ?_⟩
    simp [Catalog.findStream, newImageStream]

/-- A second non-dry `Run` against the in-memory catalog leaves the catalog of the first one,
provided the target tag is not the source pipeline tag itself. -/
theorem Run_mem_again (cfg : OutputImageTagStepConfiguration) (job : JobSpec) (c : Catalog)
    (src : ImageStreamTag)
    (h : c.findTag job.Namespace (PipelineImageStream ++ ":" ++ cfg.From) = some src)
    (hvalid : ¬ ((memStep cfg job).namespace' = job.Namespace ∧
      cfg.To.Name ++ ":" ++ cfg.To.Tag = PipelineImageStream ++ ":" ++ cfg.From)) :
    (Run (memStep cfg job) false c).2.findTag job.Namespace
        (PipelineImageStream ++ ":" ++ cfg.From) = some src ∧
      Run (memStep cfg job) false (Run (memStep cfg job) false c).2 =
        (none, (Run (memStep cfg job) false c).2) := by
  obtain ⟨i, hi⟩ := findStream_after_Run cfg job c src h
  have hsrc1 : (Run (memStep cfg job) false c).2.findTag job.Namespace
      (PipelineImageStream ++ ":" ++ cfg.From) = some src := by
    rw [Run_mem cfg job c src h]
    rw [Catalog.findTag_cons_other _ _ _ _ _ hvalid]
    have := Catalog.findTag_filter_other c (memStep cfg job).namespace'
      (cfg.To.Name ++ ":" ++ cfg.To.Tag) job.Namespace (PipelineImageStream ++ ":" ++ cfg.From)
      (fun hh => hvalid ⟨hh.1.symm, hh.2.symm⟩)
    simp only [Catalog.findTag] at this ⊢
    rw [this]
    exact h
  refine ⟨hsrc1, ?_⟩
  rw [Run_mem cfg job _ src hsrc1, hi]
  rw [Run_mem cfg job c src h]
  simp only [Prod.mk.injEq, true_and, Catalog.mk.injEq, List.filter_cons, imageStreamTag,
    newImageStreamTag, memStep_config, memStep_jobSpec, beq_self_eq_true, Bool.and_self,
    Bool.not_true, Bool.false_eq_true, if_false, List.filter_filter, Bool.and_self, true_and,
    List.cons.injEq]

/-- C4 (fails on the code as stated): against the empty catalog the source pipeline tag
does not resolve, so the first non-dry `Run` of the running example fails and leaves the
catalog empty, and the second `Run` fails in the same way instead of succeeding. -/
theorem Run_twice_on_empty_catalog_fails :
    Run exampleStep false { streams := [], tags := [] } =
        (some "could not resolve base image: imagestreamtag pipeline:src not found",
          { streams := [], tags := [] }) ∧
      (Run exampleStep false (Run exampleStep false { streams := [], tags := [] }).2).1 ≠
        none := by
  decide

/-- C4 (amended): for every (source, target) pair whose target tag is not the source pipeline
tag itself, and every catalog in which the source pipeline tag resolves, two non-dry `Run`s in
sequence both succeed and leave the same catalog as one, so the same target tag, the one built
from the resolved identifier.  The stream creation of the second `Run` observes
`AlreadyExists`; its deletion finds the tag of the first `Run` and its tag creation succeeds.
When the catalog did not hold the target tag, the deletion of the first `Run` observes
`NotFound`. -/
theorem Run_twice (cfg : OutputImageTagStepConfiguration) (job : JobSpec) (c : Catalog)
    (src new : ImageStreamTag) (ns : String) (once twice : Option GoError × Catalog)
    (hns : ns = if cfg.To.Namespace ≠ "" then cfg.To.Namespace else job.Namespace)
    (hnew : new = newImageStreamTag job.Namespace PipelineImageStream src.Image.Name ns
      cfg.To.Name cfg.To.Tag)
    (hsrc : memClient.ImageStreamTagsGet c job.Namespace
      (PipelineImageStream ++ ":" ++ cfg.From) = Except.ok src)
    (hvalid : ¬ (ns = job.Namespace ∧
      cfg.To.Name ++ ":" ++ cfg.To.Tag = PipelineImageStream ++ ":" ++ cfg.From))
    (honce : once = Run (memStep cfg job) false c)
    (htwice : twice = Run (memStep cfg job) false once.2) :
    once.1 = none ∧ twice.1 = none ∧ twice.2 = once.2 ∧
      memClient.ImageStreamTagsGet once.2 ns (cfg.To.Name ++ ":" ++ cfg.To.Tag) =
        Except.ok new ∧
      memClient.ImageStreamTagsGet twice.2 ns (cfg.To.Name ++ ":" ++ cfg.To.Tag) =
        Except.ok new ∧
      (∃ e, memClient.ImageStreamsCreate once.2 ns (newImageStream ns cfg.To.Name) =
        (some e, once.2) ∧ e.reason = StatusReason.AlreadyExists) ∧
      (memClient.ImageStreamTagsDelete once.2 ns (cfg.To.Name ++ ":" ++ cfg.To.Tag)).1 =
        none ∧
      memClient.ImageStreamTagsCreate
        (memClient.ImageStreamTagsDelete once.2 ns (cfg.To.Name ++ ":" ++ cfg.To.Tag)).2
        ns new = (none, twice.2) ∧
      (c.findTag ns (cfg.To.Name ++ ":" ++ cfg.To.Tag) = none →
        ∃ e, (memClient.ImageStreamTagsDelete
          (memClient.ImageStreamsCreate c ns (newImageStream ns cfg.To.Name)).2 ns
          (cfg.To.Name ++ ":" ++ cfg.To.Tag)).1 = some e ∧
          e.reason = StatusReason.NotFound) := by
  have hn : (memStep cfg job).namespace' = ns := by
    rw [hns, namespace_eq]
    rfl
  have hsrc' := findTag_of_get _ _ _ _ hsrc
  rw [← hn] at hvalid
  obtain ⟨hsrc1, hagain⟩ := Run_mem_again cfg job c src hsrc' hvalid
  obtain ⟨i, hi⟩ := findStream_after_Run cfg job c src hsrc'
  rw [hn] at hi
  rw [← honce] at hagain hi
  rw [hagain] at htwice
  have h1 : once.1 = none := by rw [honce, Run_mem cfg job c src hsrc']
  have hfound : once.2.findTag ns (cfg.To.Name ++ ":" ++ cfg.To.Tag) = some new := by
    rw [honce, Run_mem cfg job c src hsrc', hnew, ← hn]
    exact Catalog.findTag_cons_self _ _ ((memStep cfg job).imageStreamTag src.Image.Name)
  have hget : memClient.ImageStreamTagsGet once.2 ns (cfg.To.Name ++ ":" ++ cfg.To.Tag) =
      Except.ok new := by
    rw [Catalog.get_eq, hfound]
  have hnewName : new.Name = cfg.To.Name ++ ":" ++ cfg.To.Tag := by rw [hnew]; rfl
  have hnewNs : ({ new with Namespace := ns } : ImageStreamTag) = new := by rw [hnew]; rfl
  subst htwice
  refine ⟨h1, rfl, rfl, hget, hget, ?_, ?_, ?_, ?_⟩
  · rw [Catalog.createStream_eq]
    have : (newImageStream ns cfg.To.Name).Name = cfg.To.Name := rfl
    rw [this, hi]
    exact ⟨_, rfl, rfl⟩
  · rw [Catalog.delete_eq, hfound]
  · rw [Catalog.delete_snd, Catalog.create_of_absent]
    · rw [hnewNs]
      rw [← honce] at hsrc1
      have hm := Run_mem cfg job once.2 src hsrc1
      rw [hagain] at hm
      have htags := congrArg (fun r => r.2.tags) hm
      simp only [hn, imageStreamTag, memStep_config, memStep_jobSpec, ← hnew] at htags
      rw [← htags]
    · rw [hnewName]
      exact Catalog.findTag_filter_self _ _ _
  · intro habsent
    rw [Catalog.delete_eq, Catalog.createStream_snd]
    have : Catalog.findTag
        { streams :=
            match c.findStream ns (newImageStream ns cfg.To.Name).Name with
            | some _ => c.streams
            | none => { newImageStream ns cfg.To.Name with Namespace := ns } :: c.streams
          tags := c.tags } ns (cfg.To.Name ++ ":" ++ cfg.To.Tag) = none := habsent
    rw [this]
    exact ⟨_, rfl, rfl⟩

/-- Witness of C4 (amended) on the running example, against the catalog that holds the
source pipeline tag and nothing else. -/
theorem Run_twice_witness :
    (Run exampleStep false sourceCatalog).1 = none ∧
      Run exampleStep false (Run exampleStep false sourceCatalog).2 =
        (none, (Run exampleStep false sourceCatalog).2) ∧
      memClient.ImageStreamTagsGet (Run exampleStep false sourceCatalog).2 "ns"
        "stable:latest" =
        Except.ok (newImageStreamTag "ns" "pipeline" "new" "ns" "stable" "latest") :=
  have h := Run_twice exampleStep.config exampleStep.jobSpec sourceCatalog (pipelineTag "new")
    (newImageStreamTag "ns" "pipeline" "new" "ns" "stable" "latest") "ns"
    (Run exampleStep false sourceCatalog)
    (Run exampleStep false (Run exampleStep false sourceCatalog).2)
    (by decide) (by rfl) (by rfl) (by decide) rfl rfl
  ⟨h.1, Prod.ext h.2.1 h.2.2.1, h.2.2.2.1⟩

/-- C5 (fails on the code as stated): `importedCatalog` holds the target tag stable:latest as
an import from an external registry; no `Run` has put it there, since no tag in that catalog is
one that a `Run` of any step builds, and yet `Done` returns true. -/
theorem Done_true_without_Run :
    Done exampleStep importedCatalog = (true, none) ∧
      ∀ (cfg : OutputImageTagStepConfiguration) (job : JobSpec) (id : String),
        (memStep cfg job).imageStreamTag id ∉ importedCatalog.tags := by
  refine ⟨by decide, ?_⟩
  intro cfg job id hmem
  simp only [importedCatalog, List.mem_singleton] at hmem
  have := congrArg (fun t => t.Image.Name) hmem
  simp [imageStreamTag, newImageStreamTag] at this

/-- C5 (amended): against a catalog that does not hold the target tag, `Done` returns false
with no error; immediately after a successful non-dry `Run` of the step, `Done` returns true
with no error. -/
theorem Done_before_and_after_Run (cfg : OutputImageTagStepConfiguration) (job : JobSpec)
    (c : Catalog) (ns : String)
    (hns : ns = if cfg.To.Namespace ≠ "" then cfg.To.Namespace else job.Namespace) :
    (c.findTag ns (cfg.To.Name ++ ":" ++ cfg.To.Tag) = none →
        Done (memStep cfg job) c = (false, none)) ∧
      ((Run (memStep cfg job) false c).1 = none →
        Done (memStep cfg job) (Run (memStep cfg job) false c).2 = (true, none)) := by
  have hn : (memStep cfg job).namespace' = ns := by
    rw [hns, namespace_eq]
    rfl
  refine ⟨?_, ?_⟩
  · intro habsent
    simp [Done, memStep_client, memStep_config, Catalog.get_eq, hn, habsent, IsNotFound]
  · intro hok
    cases hsrc : c.findTag job.Namespace (PipelineImageStream ++ ":" ++ cfg.From) with
    | none =>
      rw [Run_mem_unresolved cfg job c hsrc] at hok
      simp at hok
    | some src =>
      rw [Run_mem cfg job c src hsrc]
      have := Catalog.findTag_cons_self
        (match c.findStream (memStep cfg job).namespace' cfg.To.Name with
          | some _ => c.streams
          | none => newImageStream (memStep cfg job).namespace' cfg.To.Name :: c.streams)
        (c.tags.filter fun t => !(t.Namespace == (memStep cfg job).namespace' &&
          t.Name == cfg.To.Name ++ ":" ++ cfg.To.Tag))
        ((memStep cfg job).imageStreamTag src.Image.Name)
      simp only [imageStreamTag_Namespace, imageStreamTag_Name, memStep_config] at this
      simp only [Done, memStep_client, memStep_config, Catalog.get_eq, this]

/-- Witness of C5 (amended) on the running example: `Done` is false on the catalog that holds
the source pipeline tag only, and true after the `Run` against it. -/
theorem Done_before_and_after_Run_witness :
    Done exampleStep sourceCatalog = (false, none) ∧
      Done exampleStep (Run exampleStep false sourceCatalog).2 = (true, none) :=
  ⟨(Done_before_and_after_Run exampleStep.config exampleStep.jobSpec sourceCatalog "ns"
      (by decide)).1 (by decide),
   (Done_before_and_after_Run exampleStep.config exampleStep.jobSpec sourceCatalog "ns"
      (by decide)).2 (by decide)⟩

end outputImageTagStep

end steps
